import Mathlib

/-
Verification of the real-time frame-analysis and guidance engine of the
vehicle-inspection repository.  The definitions below are a shallow
embedding of src/src/components/CameraInspection.tsx; JavaScript numbers
are idealized as exact rationals, and the asynchronous detector completion
is modeled as an explicit state-transforming handler.  Line numbers in the
comments refer to CameraInspection.tsx.
-/

namespace VehicleInspection

/-- The four distance zones of the guidance UI (line 5). -/
inductive DistanceStatus where
  | too_close
  | too_far
  | ok
  | no_vehicle
deriving DecidableEq

/-- Axis-aligned rectangle, as the Box interface (lines 495-500). -/
structure Box where
  x : ℚ
  y : ℚ
  width : ℚ
  height : ℚ
deriving DecidableEq

/-- Line 12: run detection every N frames when not recording. -/
def DETECTION_INTERVAL : ℕ := 6

/-- Line 13: more frequent detection when recording. -/
def DETECTION_INTERVAL_RECORDING : ℕ := 3

/-- The detection cache: lastDetectionBoxRef and lastDetectionTimeRef
(lines 42 and 44). -/
structure CacheState where
  lastDetectionBox : Option Box
  lastDetectionTime : ℚ
deriving DecidableEq

/-- Lines 126-132: while recording, a cached box older than 2000 ms is
actively cleared from the cache (both the box and its timestamp). -/
def staleClearRecording (isRecording : Bool) (st : CacheState) (now : ℚ) : CacheState :=
  if isRecording ∧ st.lastDetectionBox.isSome ∧ st.lastDetectionTime > 0 ∧
      now - st.lastDetectionTime > 2000 then
    { lastDetectionBox := none, lastDetectionTime := 0 }
  else st

/-- Lines 136-147: reading the cached box when the model is loaded.  While
recording, a stored box older than 1500 ms is treated as absent (gated at
read time, without clearing the store). -/
def readCachedVehicleBox (isRecording : Bool) (st : CacheState) (now : ℚ) : Option Box :=
  match st.lastDetectionBox with
  | none => none
  | some b =>
    if st.lastDetectionTime > 0 ∧ isRecording ∧ now - st.lastDetectionTime > 1500 then none
    else some b

/-- Lines 502-511: fixed-proportion fallback box used before the detector
model is ready.  The source computes the fields with paddingRat = 0.1 and
returns null for a degenerate canvas. -/
def approximateVehicleBox (canvasWidth canvasHeight : ℚ) : Option Box :=
  let width := canvasWidth * (1 - 2 * (0.1 : ℚ))
  let height := canvasHeight * 0.6
  let x := canvasWidth * 0.1
  let y := canvasHeight * 0.2
  if canvasWidth = 0 ∨ canvasHeight = 0 then none
  else some { x := x, y := y, width := width, height := height }

/-- Lines 155-161: heuristic rejection of tall person-like boxes with
aspect (width/height) below 1.0. -/
def aspectFilter (vehicleBox : Option Box) : Option Box :=
  match vehicleBox with
  | some b => if b.width / b.height < 1 then none else some b
  | none => none

/-- Lines 179-192: distance zone from the width-to-frame ratio; lines
222-227 give no_vehicle when no box is present. -/
def distanceStatusOf (vehicleBox : Option Box) (frameWidth : ℚ) : DistanceStatus :=
  match vehicleBox with
  | none => .no_vehicle
  | some b =>
    if b.width / frameWidth > 0.85 then .too_close
    else if b.width / frameWidth < 0.55 then .too_far
    else .ok

/-- A flagged damage area as accumulated by detectDamageInVehicleArea
(line 712): position, extent and confidence. -/
structure DamageArea where
  x : ℚ
  y : ℚ
  width : ℚ
  height : ℚ
  confidence : ℚ
deriving DecidableEq

/-- A damage detection as stored in damageDetectionsRef (line 46). -/
structure Damage where
  box : Box
  confidence : ℚ
  label : String
deriving DecidableEq

/-- Line 713: blocks of 40 by 40 pixels. -/
def blockSize : ℕ := 40

/-- Lines 726-729: brightness of the current pixel, the mean of the
channels at idx, idx+1 and idx+2 (R, G, B of the flat image-data array). -/
def brightnessAt (data : ℕ → ℚ) (idx : ℕ) : ℚ :=
  (data idx + data (idx + 1) + data (idx + 2)) / 3

/-- Lines 733-737: brightness of the diagonal neighbour as the source
computes it.  Note that line 736 reads data at prevIdx + 1 for prevB, so
the green channel enters twice and the blue channel is never read. -/
def prevBrightnessAt (data : ℕ → ℚ) (idx : ℕ) : ℚ :=
  (data idx + data (idx + 1) + data (idx + 1)) / 3

/-- Modelled from the spec: the neighbour brightness the spec describes,
the mean of the R, G and B channel values of the neighbour pixel (spec
section 4.4; used only to compare against prevBrightnessAt for claim C3). -/
def specNeighborBrightnessAt (data : ℕ → ℚ) (idx : ℕ) : ℚ :=
  (data idx + data (idx + 1) + data (idx + 2)) / 3

/-- Accumulator of the per-block loop (lines 718-720): totalContrast,
pixelCount and maxDiff. -/
structure BlockAcc where
  totalContrast : ℚ
  pixelCount : ℕ
  maxDiff : ℚ
deriving DecidableEq

/-- The (by, bx) iteration space of the two inner loops (lines 723-724),
in source order: by outer, bx inner, each ranging over [0, blockSize). -/
def blockPairs : List (ℕ × ℕ) :=
  (List.range blockSize).flatMap (fun row => (List.range blockSize).map (fun col => (row, col)))

/-- One step of the per-block loop body (lines 723-744).  The source skips
an iteration when the in-bounds guard fails (breaking out of a loop agrees
with filtering, since the guards are monotone in by and bx) and compares
with the diagonal neighbour only when bx > 0 and by > 0. -/
def blockAccStep (data : ℕ → ℚ) (width height x y : ℕ) (acc : BlockAcc)
    (p : ℕ × ℕ) : BlockAcc :=
  if y + p.1 < height ∧ x + p.2 < width ∧ 0 < p.2 ∧ 0 < p.1 then
    { totalContrast := acc.totalContrast +
        |brightnessAt data (((y + p.1) * width + (x + p.2)) * 4) -
          prevBrightnessAt data (((y + p.1 - 1) * width + (x + p.2 - 1)) * 4)|,
      pixelCount := acc.pixelCount + 1,
      maxDiff := max acc.maxDiff
        |brightnessAt data (((y + p.1) * width + (x + p.2)) * 4) -
          prevBrightnessAt data (((y + p.1 - 1) * width + (x + p.2 - 1)) * 4)| }
  else acc

/-- Lines 718-745: contrast statistics of the block whose top-left corner
is (x, y) inside the extracted vehicle region of the given width and
height. -/
def blockStats (data : ℕ → ℚ) (width height x y : ℕ) : BlockAcc :=
  blockPairs.foldl (blockAccStep data width height x y) ⟨0, 0, 0⟩

/-- Modelled from the spec: one step of the per-block loop with the
neighbour brightness the spec describes (claim C3 comparison). -/
def specBlockAccStep (data : ℕ → ℚ) (width height x y : ℕ) (acc : BlockAcc)
    (p : ℕ × ℕ) : BlockAcc :=
  if y + p.1 < height ∧ x + p.2 < width ∧ 0 < p.2 ∧ 0 < p.1 then
    { totalContrast := acc.totalContrast +
        |brightnessAt data (((y + p.1) * width + (x + p.2)) * 4) -
          specNeighborBrightnessAt data (((y + p.1 - 1) * width + (x + p.2 - 1)) * 4)|,
      pixelCount := acc.pixelCount + 1,
      maxDiff := max acc.maxDiff
        |brightnessAt data (((y + p.1) * width + (x + p.2)) * 4) -
          specNeighborBrightnessAt data (((y + p.1 - 1) * width + (x + p.2 - 1)) * 4)| }
  else acc

/-- Modelled from the spec: the same block statistics but with the
neighbour brightness taken as the mean of R, G and B of the neighbour
pixel, as the spec describes (claim C3 comparison). -/
def specBlockStats (data : ℕ → ℚ) (width height x y : ℕ) : BlockAcc :=
  blockPairs.foldl (specBlockAccStep data width height x y) ⟨0, 0, 0⟩

/-- Block starting offsets of the grid loops (lines 716-717): the values
v = 0, blockSize, 2*blockSize, ... with v < limit - blockSize. -/
def blockStarts (limit : ℕ) : List ℕ :=
  (List.range limit).filter (fun v => v % blockSize = 0 ∧ v + blockSize < limit)

/-- Line 747: average contrast of a block, 0 when no pair was counted. -/
def avgContrastOf (acc : BlockAcc) : ℚ :=
  if acc.pixelCount > 0 then acc.totalContrast / acc.pixelCount else 0

/-- Lines 747-761: flag decision and confidence for one block; the
contrast score of line 748 is the average contrast divided by 255. -/
def flagBlock (data : ℕ → ℚ) (width height : ℕ) (boxX boxY : ℚ) (x y : ℕ) :
    Option DamageArea :=
  if avgContrastOf (blockStats data width height x y) / 255 > 0.3 ∨
      (blockStats data width height x y).maxDiff > 50 then
    some { x := boxX + x, y := boxY + y,
           width := min blockSize (width - x),
           height := min blockSize (height - y),
           confidence := min 0.95
             (0.4 + avgContrastOf (blockStats data width height x y) / 255 * 0.5 +
               (blockStats data width height x y).maxDiff / 255 * 0.3) }
  else none

/-- Lines 716-763: the flagged blocks of the vehicle region, pushed in the
loop order (y outer, x inner). -/
def damageAreasOf (data : ℕ → ℚ) (width height : ℕ) (boxX boxY : ℚ) : List DamageArea :=
  (blockStarts height).flatMap (fun y =>
    (blockStarts width).filterMap (fun x => flagBlock data width height boxX boxY x y))

/-- Lines 797-800: squared distance of the two box centers.  The source
compares Math.sqrt of this value with 60; since the value is nonnegative
that comparison is equivalent to comparing the square with 3600, which is
how the merge predicate is stated here. -/
def centerDistSq (a b : DamageArea) : ℚ :=
  ((a.x + a.width / 2) - (b.x + b.width / 2)) * ((a.x + a.width / 2) - (b.x + b.width / 2)) +
    ((a.y + a.height / 2) - (b.y + b.height / 2)) * ((a.y + a.height / 2) - (b.y + b.height / 2))

/-- Lines 804-815: union bounding box with the maximum confidence. -/
def mergeUnion (currentBox otherBox : DamageArea) : DamageArea :=
  let minX := min currentBox.x otherBox.x
  let minY := min currentBox.y otherBox.y
  let maxX := max (currentBox.x + currentBox.width) (otherBox.x + otherBox.width)
  let maxY := max (currentBox.y + currentBox.height) (otherBox.y + otherBox.height)
  { x := minX, y := minY, width := maxX - minX, height := maxY - minY,
    confidence := max currentBox.confidence otherBox.confidence }

/-- Lines 793-818: the inner j-loop of mergeNearbyBoxes.  Boxes within 60
pixels of the current accumulating box are absorbed (marked used); the
others are kept, in order, for later outer iterations. -/
def mergeStep (currentBox : DamageArea) (rest : List DamageArea) :
    DamageArea × List DamageArea :=
  match rest with
  | [] => (currentBox, [])
  | otherBox :: tl =>
    if centerDistSq currentBox otherBox < 3600 then
      mergeStep (mergeUnion currentBox otherBox) tl
    else
      let r := mergeStep currentBox tl
      (r.1, otherBox :: r.2)

/-- Lines 786-821: the outer i-loop of mergeNearbyBoxes.  The loop visits
each index at most once and skips used entries, which corresponds to
removing absorbed boxes from the remaining list; the fuel argument equals
the number of remaining outer iterations (boxes.length at the start) and
never runs out because mergeStep only shrinks the remaining list. -/
def mergeOuterLoop : ℕ → List DamageArea → List DamageArea
  | _, [] => []
  | 0, _ :: _ => []
  | fuel + 1, b :: tl =>
    let r := mergeStep b tl
    r.1 :: mergeOuterLoop fuel r.2

/-- Lines 778-824: merge nearby bounding boxes. -/
def mergeNearbyBoxes (boxes : List DamageArea) : List DamageArea :=
  mergeOuterLoop boxes.length boxes

/-- Conversion of a rational pixel dimension to the integer size of the
extracted image-data region (getImageData takes integral arguments). -/
def pixelDim (q : ℚ) : ℕ := q.floor.toNat

/-- Lines 688-775: damage detection over the vehicle region.  The final
map (lines 767-771) attaches the constant DAMAGE label. -/
def detectDamageInVehicleArea (data : ℕ → ℚ) (width height : ℕ) (vehicleBox : Box) :
    List Damage :=
  (mergeNearbyBoxes (damageAreasOf data width height vehicleBox.x vehicleBox.y)).map
    (fun area =>
      { box := { x := area.x, y := area.y, width := area.width, height := area.height },
        confidence := area.confidence, label := "DAMAGE" })

/-- The per-tick guidance state: lastVehicleCenterRef (line 41) as an
(x, time) pair, damageDetectionsRef (line 46), and the distance-status,
speed-warning and vehicle-detected React state (lines 32, 34, 39). -/
structure GuidanceState where
  lastCenter : Option (ℚ × ℚ)
  damageDetections : List Damage
  distanceStatus : DistanceStatus
  speedWarning : Bool
  vehicleDetected : Bool
deriving DecidableEq

/-- Lines 163-227: the guidance part of one tick, given the vehicle box
that survived cache read and aspect filtering.  scanFires is the cadence
test of line 170; now is the timestamp sampled at line 200 (the source
samples performance.now a second time there).  With a box: the damage
scanner may run (line 171), the distance status is derived from the
width ratio (lines 179-196), the damage collection is cleared when the
center moved more than 50 px (lines 202-209), the speed warning follows
the 600 px/s rule (lines 210-220) and the center/time pair is overwritten
(line 221).  Without a box (lines 222-227): status no_vehicle, warning
cleared, detected flag false, and the center pair and damage collection
are left untouched. -/
def guidanceStep (vehicleBox : Option Box) (canvasWidth : ℚ) (data : ℕ → ℚ)
    (scanFires : Bool) (now : ℚ) (st : GuidanceState) : GuidanceState :=
  match vehicleBox with
  | some b =>
    let damageAfterScan :=
      if scanFires then detectDamageInVehicleArea data (pixelDim b.width) (pixelDim b.height) b
      else st.damageDetections
    let status := distanceStatusOf (some b) canvasWidth
    let centerX := b.x + b.width / 2
    let damageAfterMove :=
      match st.lastCenter with
      | some lc => if |centerX - lc.1| > 50 then [] else damageAfterScan
      | none => damageAfterScan
    let warn :=
      match st.lastCenter with
      | some lc => decide (|centerX - lc.1| / ((now - lc.2) / 1000) > 600)
      | none => st.speedWarning
    { lastCenter := some (centerX, now), damageDetections := damageAfterMove,
      distanceStatus := status, speedWarning := warn, vehicleDetected := true }
  | none =>
    { st with distanceStatus := .no_vehicle, speedWarning := false,
              vehicleDetected := false }

/-- The state touched by one iteration of analyzeFrame: the frame counter
(line 43), the detection cache, and the guidance state. -/
structure TickState where
  frameCounter : ℕ
  cache : CacheState
  guidance : GuidanceState
deriving DecidableEq

/-- Lines 82-239: one tick of the analysis loop (the asynchronous
model.detect issuance of lines 106-123 is modeled separately by
handleDetections, since its completion lands on a later tick).  now is the
timestamp of line 104 and nowSpeed the one resampled at line 200. -/
def analyzeFrameTick (modelReady isRecording : Bool) (canvasWidth canvasHeight : ℚ)
    (data : ℕ → ℚ) (now nowSpeed : ℚ) (st : TickState) : TickState :=
  let frameCounter := st.frameCounter + 1
  let detInterval := if isRecording then DETECTION_INTERVAL_RECORDING else DETECTION_INTERVAL
  let cache := staleClearRecording isRecording st.cache now
  let vehicleBox0 :=
    if modelReady then readCachedVehicleBox isRecording cache now
    else approximateVehicleBox canvasWidth canvasHeight
  let vehicleBox := aspectFilter vehicleBox0
  let scanFires : Bool := frameCounter % (detInterval * 3) = 0
  { frameCounter := frameCounter, cache := cache,
    guidance := guidanceStep vehicleBox canvasWidth data scanFires nowSpeed st.guidance }

/-- A raw detector prediction.  The class and bounding-box fields are
optional to model malformed or partial detector output (spec section 7);
a well-formed coco-ssd DetectedObject has both. -/
structure Prediction where
  cls : Option String
  bbox : Option (ℚ × ℚ × ℚ × ℚ)
  score : ℚ
deriving DecidableEq

/-- Line 675: the allowed vehicle classes. -/
def allowedVehicleClasses : List String := ["car", "truck", "bus", "motorcycle"]

/-- Line 676: the filter predicate.  A missing class field never equals an
allowed class (Set.has(undefined) is false), so such predictions are
silently dropped. -/
def isVehiclePrediction (p : Prediction) : Bool :=
  match p.cls with
  | some c => allowedVehicleClasses.contains c
  | none => false

/-- Lines 680-682: bounding-box area used by the sort comparator.  Only
evaluated on predictions whose bbox is present (see
selectVehiclePrediction); the default 0 is never reached there. -/
def predictionArea (p : Prediction) : ℚ :=
  match p.bbox with
  | some (_, _, w, h) => w * h
  | none => 0

/-- Lines 679-684: the largest-area candidate.  The source stable-sorts
descending by area and takes index 0, which is the earliest maximal-area
element; the fold keeps the current best unless a strictly larger area
appears, giving the same element. -/
def pickLargest (p : Prediction) (l : List Prediction) : Prediction :=
  l.foldl (fun best q => if predictionArea q > predictionArea best then q else best) p

/-- Lines 672-685: candidate selection.  With a single candidate,
Array.prototype.sort never invokes the comparator, so a missing bbox goes
unnoticed here; with two or more candidates every element is compared at
least once and the comparator reads bbox[2], which raises a TypeError when
some bbox is absent.  The error value models that raised exception. -/
def selectVehiclePrediction (predictions : List Prediction) :
    Except Unit (Option Prediction) :=
  let vehicleDetections := predictions.filter isVehiclePrediction
  match vehicleDetections with
  | [] => .ok none
  | [p] => .ok (some p)
  | p :: rest =>
    if (p :: rest).all (fun q => q.bbox.isSome) then .ok (some (pickLargest p rest))
    else .error ()

/-- Lines 107-122: the detector-completion callback.  On a selected
prediction the bbox is destructured (line 110), which raises when the bbox
field is absent; on no qualifying detection the cached box is cleared only
if more than 1000 ms passed since the last successful detection (lines
115-121, with the timestamp left as is). -/
def handleDetections (predictions : List Prediction) (st : CacheState) (now : ℚ) :
    Except Unit CacheState :=
  match selectVehiclePrediction predictions with
  | .error e => .error e
  | .ok (some vehiclePred) =>
    match vehiclePred.bbox with
    | some (x, y, w, h) =>
      .ok { lastDetectionBox := some { x := x, y := y, width := w, height := h },
            lastDetectionTime := now }
    | none => .error ()
  | .ok none =>
    if now - st.lastDetectionTime > 1000 then
      .ok { st with lastDetectionBox := none }
    else .ok st

/-- The session-level state of the component: the started/recording flags
(lines 29-30), the vehicle-detected flag (line 39), stream availability,
the coverage state (lines 35-36), and the recorder state (lines 24-25)
together with the detection bookkeeping reset on start (lines 303-304). -/
structure Session where
  hasStarted : Bool
  isRecording : Bool
  vehicleDetected : Bool
  hasStream : Bool
  startTime : Option ℚ
  progress : ℚ
  recorderActive : Bool
  recordedChunks : ℕ
  frameCounter : ℕ
  lastDetectionTime : ℚ
deriving DecidableEq

/-- Lines 455-477 and 275-305: the effect of pressing the start-recording
control.  The button exists only in the started, not-recording view, is
disabled while no vehicle is detected (line 461, a disabled button fires
no click), and startRecording itself returns early without a stream
(line 277); otherwise recording starts: chunks reset, recorder started,
coverage reset, and the detection counter and timestamp reset. -/
def pressStart (s : Session) (now : ℚ) : Session :=
  if ¬ s.hasStarted then s
  else if s.isRecording then s
  else if ¬ s.vehicleDetected then s
  else if ¬ s.hasStream then s
  else { s with recordedChunks := 0, recorderActive := true, isRecording := true,
                startTime := some now, progress := 0,
                lastDetectionTime := now, frameCounter := 0 }

/-- Unfolding lemma for the some-branch of distanceStatusOf. -/
theorem distanceStatusOf_some (b : Box) (frameWidth : ℚ) :
    distanceStatusOf (some b) frameWidth =
      if b.width / frameWidth > 0.85 then .too_close
      else if b.width / frameWidth < 0.55 then .too_far
      else .ok := rfl

/-- C1: with a vehicle box present the distance status is an exhaustive,
non-overlapping trichotomy of the ratio r = box.width / frameWidth
(r > 0.85 gives TooClose, r < 0.55 gives TooFar, 0.55 <= r <= 0.85 gives
Ok), and with no box present the status is NoVehicle. -/
theorem distance_status_trichotomy (b : Box) (frameWidth : ℚ) :
    (distanceStatusOf (some b) frameWidth = .too_close ↔
      b.width / frameWidth > 0.85) ∧
    (distanceStatusOf (some b) frameWidth = .too_far ↔
      b.width / frameWidth < 0.55) ∧
    (distanceStatusOf (some b) frameWidth = .ok ↔
      0.55 ≤ b.width / frameWidth ∧ b.width / frameWidth ≤ 0.85) ∧
    distanceStatusOf (none : Option Box) frameWidth = .no_vehicle := by
  refine ⟨?_, ?_, ?_, rfl⟩ <;> rw [distanceStatusOf_some] <;>
    split_ifs with h1 h2 <;> constructor <;> intro hx
  all_goals first
    | rfl
    | exact h1
    | exact h2
    | exact absurd hx (by decide)
    | exact absurd hx h1
    | exact absurd hx h2
    | exact absurd h1 (not_lt_of_le hx.2)
    | exact absurd h2 (not_lt_of_le hx.1)
    | exact ⟨le_of_not_lt h2, le_of_not_lt h1⟩
    | linarith

/-- C2: with a box stored at time t and more than 1500 ms elapsed, the
read while recording returns absent while the identical read while not
recording returns the stored box; once more than 2000 ms have elapsed the
recording-time pass actively clears the store (and never does so while
not recording). -/
theorem recording_staleness_gate (b : Box) (t now : ℚ)
    (ht : 0 < t) (helapsed : now - t > 1500) :
    readCachedVehicleBox true ⟨some b, t⟩ now = none ∧
    readCachedVehicleBox false ⟨some b, t⟩ now = some b ∧
    (now - t > 2000 → staleClearRecording true ⟨some b, t⟩ now = ⟨none, 0⟩) ∧
    staleClearRecording false ⟨some b, t⟩ now = ⟨some b, t⟩ := by
  refine ⟨?_, ?_, fun h2 => ?_, ?_⟩
  · simp [readCachedVehicleBox, ht, helapsed]
  · simp [readCachedVehicleBox]
  · simp [staleClearRecording, ht, h2]
  · simp [staleClearRecording]

/-- Witness for recording_staleness_gate at t = 1 and now = 1601, an
elapsed time of 1600 ms. -/
theorem recording_staleness_gate_example :
    ((0 : ℚ) < 1 ∧ (1601 : ℚ) - 1 > 1500) ∧
    (readCachedVehicleBox true ⟨some ⟨0, 0, 2, 1⟩, 1⟩ 1601 = none ∧
     readCachedVehicleBox false ⟨some ⟨0, 0, 2, 1⟩, 1⟩ 1601 = some ⟨0, 0, 2, 1⟩ ∧
     ((1601 : ℚ) - 1 > 2000 →
       staleClearRecording true ⟨some ⟨0, 0, 2, 1⟩, 1⟩ 1601 = ⟨none, 0⟩) ∧
     staleClearRecording false ⟨some ⟨0, 0, 2, 1⟩, 1⟩ 1601 = ⟨some ⟨0, 0, 2, 1⟩, 1⟩) :=
  ⟨by norm_num,
   recording_staleness_gate ⟨0, 0, 2, 1⟩ 1 1601 (by norm_num) (by norm_num)⟩

/-- An image whose pixels all have channel values R = 0, G = 0, B = 201:
the failing input for claim C3 (any region whose green and blue channels
differ exposes the bug). -/
def bluePixels : ℕ → ℚ := fun idx => if idx % 4 = 2 then 201 else 0

/-- On the uniform blue image, every pixel (whose flat index is a
multiple of 4) has code brightness 67. -/
theorem bluePixels_brightness (m : ℕ) : brightnessAt bluePixels (m * 4) = 67 := by
  have h0 : ¬ (m * 4) % 4 = 2 := by omega
  have h1 : ¬ (m * 4 + 1) % 4 = 2 := by omega
  have h2 : (m * 4 + 2) % 4 = 2 := by omega
  simp only [brightnessAt, bluePixels]
  rw [if_neg h0, if_neg h1, if_pos h2]
  norm_num

/-- On the uniform blue image, the neighbour brightness the code computes
is 0, because the blue channel is replaced by the green one. -/
theorem bluePixels_prevBrightness (m : ℕ) : prevBrightnessAt bluePixels (m * 4) = 0 := by
  have h0 : ¬ (m * 4) % 4 = 2 := by omega
  have h1 : ¬ (m * 4 + 1) % 4 = 2 := by omega
  simp only [prevBrightnessAt, bluePixels]
  rw [if_neg h0, if_neg h1]
  norm_num

/-- On the uniform blue image, the neighbour brightness described by the
spec is 67, the same as every pixel brightness. -/
theorem bluePixels_specNeighborBrightness (m : ℕ) :
    specNeighborBrightnessAt bluePixels (m * 4) = 67 := by
  have h0 : ¬ (m * 4) % 4 = 2 := by omega
  have h1 : ¬ (m * 4 + 1) % 4 = 2 := by omega
  have h2 : (m * 4 + 2) % 4 = 2 := by omega
  simp only [specNeighborBrightnessAt, bluePixels]
  rw [if_neg h0, if_neg h1, if_pos h2]
  norm_num

/-- On the uniform blue image, one step of the block loop either skips or
adds a contrast difference of exactly 67. -/
theorem blueStep (width height x y : ℕ) (acc : BlockAcc) (p : ℕ × ℕ) :
    blockAccStep bluePixels width height x y acc p = acc ∨
    blockAccStep bluePixels width height x y acc p =
      ⟨acc.totalContrast + 67, acc.pixelCount + 1, max acc.maxDiff 67⟩ := by
  unfold blockAccStep
  split
  · right
    rw [bluePixels_brightness, bluePixels_prevBrightness]
    norm_num
  · left
    rfl

/-- On the uniform blue image, one spec-modelled step either skips or
adds a contrast difference of exactly 0. -/
theorem blueSpecStep (width height x y : ℕ) (acc : BlockAcc) (p : ℕ × ℕ) :
    specBlockAccStep bluePixels width height x y acc p = acc ∨
    specBlockAccStep bluePixels width height x y acc p =
      ⟨acc.totalContrast + 0, acc.pixelCount + 1, max acc.maxDiff 0⟩ := by
  unfold specBlockAccStep
  split
  · right
    rw [bluePixels_brightness, bluePixels_specNeighborBrightness]
    norm_num
  · left
    rfl

/-- Fold invariant on the uniform blue image: the total contrast is 67 per
counted pair and the maximum difference is 67 as soon as a pair has been
counted. -/
theorem blueFold (width height x y : ℕ) (l : List (ℕ × ℕ)) (acc : BlockAcc)
    (h1 : acc.totalContrast = 67 * acc.pixelCount)
    (h2 : acc.maxDiff = if acc.pixelCount = 0 then 0 else 67) :
    (l.foldl (blockAccStep bluePixels width height x y) acc).totalContrast =
      67 * (l.foldl (blockAccStep bluePixels width height x y) acc).pixelCount ∧
    (l.foldl (blockAccStep bluePixels width height x y) acc).maxDiff =
      (if (l.foldl (blockAccStep bluePixels width height x y) acc).pixelCount = 0
        then 0 else 67) := by
  induction l generalizing acc with
  | nil => exact ⟨h1, h2⟩
  | cons p tl ih =>
    rw [List.foldl_cons]
    rcases blueStep width height x y acc p with hstep | hstep <;> rw [hstep]
    · exact ih acc h1 h2
    · refine ih _ ?_ ?_
      · simp only [h1]
        push_cast
        ring
      · simp only [h2]
        rcases Nat.eq_zero_or_pos acc.pixelCount with hc | hc

        · simp [hc]
        · have : acc.pixelCount ≠ 0 := Nat.pos_iff_ne_zero.mp hc
          simp [this]

/-- Fold invariant of the spec-modelled statistics on the uniform blue
image: total and maximum stay 0. -/
theorem blueSpecFold (width height x y : ℕ) (l : List (ℕ × ℕ)) (acc : BlockAcc)
    (h1 : acc.totalContrast = 0) (h2 : acc.maxDiff = 0) :
    (l.foldl (specBlockAccStep bluePixels width height x y) acc).totalContrast = 0 ∧
    (l.foldl (specBlockAccStep bluePixels width height x y) acc).maxDiff = 0 := by
  induction l generalizing acc with
  | nil => exact ⟨h1, h2⟩
  | cons p tl ih =>
    rw [List.foldl_cons]
    rcases blueSpecStep width height x y acc p with hstep | hstep <;> rw [hstep]
    · exact ih acc h1 h2
    · exact ih _ (by simp [h1]) (by simp [h2])

/-- A block step never decreases the pair count (any image). -/
theorem blockAccStep_count_le (data : ℕ → ℚ) (width height x y : ℕ)
    (acc : BlockAcc) (p : ℕ × ℕ) :
    acc.pixelCount ≤ (blockAccStep data width height x y acc p).pixelCount := by
  unfold blockAccStep
  split
  · exact Nat.le_succ _
  · exact le_refl _

/-- The fold never decreases the pair count (any image). -/
theorem foldl_count_le (data : ℕ → ℚ) (width height x y : ℕ)
    (l : List (ℕ × ℕ)) (acc : BlockAcc) :
    acc.pixelCount ≤ (l.foldl (blockAccStep data width height x y) acc).pixelCount := by
  induction l generalizing acc with
  | nil => exact le_refl _
  | cons p tl ih =>
    rw [List.foldl_cons]
    exact le_trans (blockAccStep_count_le data width height x y acc p) (ih _)

/-- If some pair of the iteration space passes the in-bounds and
neighbour guards, the folded pair count is positive (any image). -/
theorem foldl_count_pos (data : ℕ → ℚ) (width height x y : ℕ)
    (l : List (ℕ × ℕ)) (acc : BlockAcc) (p : ℕ × ℕ) (hp : p ∈ l)
    (hg : y + p.1 < height ∧ x + p.2 < width ∧ 0 < p.2 ∧ 0 < p.1) :
    0 < (l.foldl (blockAccStep data width height x y) acc).pixelCount := by
  induction l generalizing acc with
  | nil => cases hp
  | cons q tl ih =>
    rw [List.foldl_cons]
    rcases List.mem_cons.mp hp with rfl | hp2
    · have hstep : (blockAccStep data width height x y acc p).pixelCount =
          acc.pixelCount + 1 := by
        unfold blockAccStep
        rw [if_pos hg]
      calc 0 < acc.pixelCount + 1 := Nat.succ_pos _
        _ = (blockAccStep data width height x y acc p).pixelCount := hstep.symm
        _ ≤ _ := foldl_count_le data width height x y tl _
    · exact ih _ hp2

/-- The pair (1, 1) is in the iteration space of a block. -/
theorem pair_one_one_mem_blockPairs : ((1, 1) : ℕ × ℕ) ∈ blockPairs := by
  unfold blockPairs
  simp only [List.mem_flatMap, List.mem_map, List.mem_range]
  exact ⟨1, by norm_num [blockSize], 1, by norm_num [blockSize], rfl⟩

/-- On the uniform blue image, any block whose top-left corner leaves room
for the pair (1, 1) has maximal difference 67 and average difference 67. -/
theorem blue_blockStats (width height x y : ℕ)
    (hy : y + 1 < height) (hx : x + 1 < width) :
    (blockStats bluePixels width height x y).maxDiff = 67 ∧
    (blockStats bluePixels width height x y).totalContrast =
      67 * (blockStats bluePixels width height x y).pixelCount ∧
    0 < (blockStats bluePixels width height x y).pixelCount := by
  unfold blockStats
  have hpos : 0 < (List.foldl (blockAccStep bluePixels width height x y)
      ⟨0, 0, 0⟩ blockPairs).pixelCount :=
    foldl_count_pos bluePixels width height x y blockPairs ⟨0, 0, 0⟩ (1, 1)
      pair_one_one_mem_blockPairs ⟨hy, hx, Nat.one_pos, Nat.one_pos⟩
  have hfold := blueFold width height x y blockPairs ⟨0, 0, 0⟩ (by norm_num) (by norm_num)
  refine ⟨?_, hfold.1, hpos⟩
  rw [hfold.2, if_neg (Nat.pos_iff_ne_zero.mp hpos)]

/-- On the uniform blue image, any block with room for the pair (1, 1) is
flagged, with confidence 778/1275 (about 0.61). -/
theorem blue_flagBlock (width height : ℕ) (boxX boxY : ℚ) (x y : ℕ)
    (hy : y + 1 < height) (hx : x + 1 < width) :
    flagBlock bluePixels width height boxX boxY x y =
      some ⟨boxX + x, boxY + y, min blockSize (width - x), min blockSize (height - y),
            778 / 1275⟩ := by
  obtain ⟨hmax, htot, hpos⟩ := blue_blockStats width height x y hy hx
  have hcne : ((blockStats bluePixels width height x y).pixelCount : ℚ) ≠ 0 := by
    exact_mod_cast Nat.pos_iff_ne_zero.mp hpos
  have havg : avgContrastOf (blockStats bluePixels width height x y) = 67 := by
    unfold avgContrastOf
    rw [if_pos hpos, htot, mul_div_assoc, div_self hcne, mul_one]
  unfold flagBlock
  rw [havg, hmax]
  norm_num [min_def]

/-- The grid of a 44-pixel dimension has the single block start 0. -/
theorem blockStarts_44 : blockStarts 44 = [0] := by decide

/-- The flagged areas of the 44 by 44 blue region: the single block,
flagged with confidence 778/1275. -/
theorem blue_damageAreas_44 :
    damageAreasOf bluePixels 44 44 0 0 = [⟨0, 0, 40, 40, 778 / 1275⟩] := by
  unfold damageAreasOf
  rw [blockStarts_44]
  simp only [List.flatMap_cons, List.flatMap_nil, List.filterMap_cons, List.filterMap_nil,
    List.append_nil]
  rw [blue_flagBlock 44 44 0 0 0 0 (by norm_num) (by norm_num)]
  norm_num [blockSize]

/-- C3: the scanner averages and maximizes absolute brightness differences
between diagonal neighbours, flags on avg/255 > 0.3 or maxDiff > 50, and
uses confidence min(0.95, 0.4 + 0.5 contrast + 0.3 maxDiff/255); but the
neighbour brightness is not the mean of R, G and B: line 736 reads the
green channel twice.  On a uniform image with G = 0 and B = 201 the spec
statistics are all 0 (no flag), while the code computes difference 67 per
pair and flags the block with confidence 778/1275. -/
theorem neighbor_brightness_uses_green_channel :
    prevBrightnessAt bluePixels 0 = 0 ∧
    specNeighborBrightnessAt bluePixels 0 = 67 ∧
    brightnessAt bluePixels 0 = 67 ∧
    (blockStats bluePixels 44 44 0 0).maxDiff = 67 ∧
    (specBlockStats bluePixels 44 44 0 0).maxDiff = 0 ∧
    (specBlockStats bluePixels 44 44 0 0).totalContrast = 0 ∧
    damageAreasOf bluePixels 44 44 0 0 = [⟨0, 0, 40, 40, 778 / 1275⟩] := by
  have hspec := blueSpecFold 44 44 0 0 blockPairs ⟨0, 0, 0⟩ rfl rfl
  refine ⟨?_, ?_, ?_, (blue_blockStats 44 44 0 0 (by norm_num) (by norm_num)).1,
    ?_, ?_, blue_damageAreas_44⟩
  · simpa using bluePixels_prevBrightness 0
  · simpa using bluePixels_specNeighborBrightness 0
  · simpa using bluePixels_brightness 0
  · exact hspec.2
  · exact hspec.1

/-- Two boxes merge exactly when their centers are within 60 pixels: the
inner loop absorbs the second box into the first (union extent, maximum
confidence) in that case and keeps both otherwise. -/
theorem mergeNearbyBoxes_pair (b1 b2 : DamageArea) :
    mergeNearbyBoxes [b1, b2] =
      if centerDistSq b1 b2 < 3600 then [mergeUnion b1 b2] else [b1, b2] := by
  by_cases h : centerDistSq b1 b2 < 3600
  · simp [mergeNearbyBoxes, mergeOuterLoop, mergeStep, h]
  · simp [mergeNearbyBoxes, mergeOuterLoop, mergeStep, h]

unseal Rat.add Rat.sub Rat.mul Rat.inv Rat.ofScientific in
/-- C4 counterexample: on the input [A, C, B] with centers 20, 80 and 79,
the single greedy pass skips C (its distance from A is exactly 60), then
absorbs B into A, moving the merged center to 49.5; the output contains
two regions whose centers are 30.5 pixels apart, refuting the claimed
post-condition that no two output regions have centers within 60 px. -/
theorem merge_output_not_separated :
    mergeNearbyBoxes [⟨0, 0, 40, 40, 1/2⟩, ⟨60, 0, 40, 40, 1/2⟩, ⟨59, 0, 40, 40, 1/2⟩] =
      [⟨0, 0, 99, 40, 1/2⟩, ⟨60, 0, 40, 40, 1/2⟩] ∧
    centerDistSq ⟨0, 0, 99, 40, 1/2⟩ ⟨60, 0, 40, 40, 1/2⟩ < 3600 := by
  decide

unseal Rat.add Rat.sub Rat.mul Rat.inv Rat.ofScientific in
/-- C4 (amended): the merge is a single greedy pass.  For a two-element
input it behaves as the claim says: the boxes merge into the union box
with the maximum confidence exactly when their centers are within 60
pixels (59 px apart merges, 61 px apart stays separate); but the pass is
not repeated to a fixpoint, so larger inputs can leave close regions
unmerged (see the counterexample). -/
theorem merge_single_pass_behavior (b1 b2 : DamageArea) :
    (mergeNearbyBoxes [b1, b2] =
      if centerDistSq b1 b2 < 3600 then [mergeUnion b1 b2] else [b1, b2]) ∧
    mergeNearbyBoxes [⟨0, 0, 40, 40, 1/2⟩, ⟨59, 0, 40, 40, 3/5⟩] =
      [⟨0, 0, 99, 40, 3/5⟩] ∧
    mergeNearbyBoxes [⟨0, 0, 40, 40, 1/2⟩, ⟨61, 0, 40, 40, 3/5⟩] =
      [⟨0, 0, 40, 40, 1/2⟩, ⟨61, 0, 40, 40, 3/5⟩] :=
  ⟨mergeNearbyBoxes_pair b1 b2, by decide, by decide⟩

/-- The guidance produced by one tick, spelled out: the box read either
goes through the cache (model ready) or the fixed fallback (model not
ready), then through the aspect filter. -/
theorem analyzeFrameTick_guidance (modelReady isRecording : Bool) (cw ch : ℚ)
    (data : ℕ → ℚ) (now nowSpeed : ℚ) (st : TickState) :
    (analyzeFrameTick modelReady isRecording cw ch data now nowSpeed st).guidance =
      guidanceStep
        (aspectFilter
          (if modelReady then
            readCachedVehicleBox isRecording (staleClearRecording isRecording st.cache now) now
          else approximateVehicleBox cw ch))
        cw data
        (decide ((st.frameCounter + 1) %
          ((if isRecording then DETECTION_INTERVAL_RECORDING else DETECTION_INTERVAL) * 3) = 0))
        nowSpeed st.guidance := rfl

unseal Rat.add Rat.sub Rat.mul Rat.inv Rat.ofScientific in
/-- C5 counterexample: on a 600 by 1000 portrait frame, before the model
is ready, the fallback box (width 480, height 600) has aspect 0.8 < 1 and
is rejected by the aspect filter, so the distance status of the tick is
NoVehicle, refuting the claim that the status is never NoVehicle during
warm-up. -/
theorem warmup_portrait_no_vehicle :
    (analyzeFrameTick false false 600 1000 (fun _ => 0) 0 0
        ⟨0, ⟨none, 0⟩, ⟨none, [], .ok, false, false⟩⟩).guidance.distanceStatus =
      .no_vehicle := by
  decide

/-- C5 (amended): before the model is ready every tick is supplied the
fixed fallback box (0.1 W, 0.2 H, 0.8 W, 0.6 H), independently of the
recording flag, the cache contents and the clock (so no staleness rule
ever gates or clears it); but the fallback still passes through the
aspect filter, so the distance status is NoVehicle exactly when
0.8 W / (0.6 H) < 1, and Ok otherwise (the accepted fallback has width
ratio 0.8). -/
theorem warmup_fallback_behavior (w h : ℚ) (hw : 0 < w) (hh : 0 < h)
    (isRec : Bool) (data : ℕ → ℚ) (now nowSpeed : ℚ) (st : TickState) :
    approximateVehicleBox w h = some ⟨w * 0.1, h * 0.2, w * (1 - 2 * 0.1), h * 0.6⟩ ∧
    (analyzeFrameTick false isRec w h data now nowSpeed st).guidance.distanceStatus =
      (if w * (1 - 2 * 0.1) / (h * 0.6) < 1 then .no_vehicle else .ok) := by
  have hw0 : w ≠ 0 := ne_of_gt hw
  have hh0 : h ≠ 0 := ne_of_gt hh
  have happrox : approximateVehicleBox w h =
      some ⟨w * 0.1, h * 0.2, w * (1 - 2 * 0.1), h * 0.6⟩ := by
    unfold approximateVehicleBox
    rw [if_neg]
    push_neg
    exact ⟨hw0, hh0⟩
  refine ⟨happrox, ?_⟩
  rw [analyzeFrameTick_guidance]
  have hsel : (if (false : Bool) then
      readCachedVehicleBox isRec (staleClearRecording isRec st.cache now) now
    else approximateVehicleBox w h) = approximateVehicleBox w h := rfl
  rw [hsel, happrox]
  have hfilter : aspectFilter (some ⟨w * 0.1, h * 0.2, w * (1 - 2 * 0.1), h * 0.6⟩) =
      if w * (1 - 2 * 0.1) / (h * 0.6) < 1 then none
      else some ⟨w * 0.1, h * 0.2, w * (1 - 2 * 0.1), h * 0.6⟩ := rfl
  rw [hfilter]
  by_cases hc : w * (1 - 2 * 0.1) / (h * 0.6) < 1
  · rw [if_pos hc, if_pos hc]
    rfl
  · rw [if_neg hc, if_neg hc]
    show distanceStatusOf (some ⟨w * 0.1, h * 0.2, w * (1 - 2 * 0.1), h * 0.6⟩) w = .ok
    rw [distanceStatusOf_some]
    have hr : w * (1 - 2 * 0.1) / w = 1 - 2 * 0.1 := by
      rw [mul_comm, mul_div_assoc, div_self hw0, mul_one]
    show (if w * (1 - 2 * 0.1) / w > 0.85 then DistanceStatus.too_close
      else if w * (1 - 2 * 0.1) / w < 0.55 then DistanceStatus.too_far
      else DistanceStatus.ok) = DistanceStatus.ok
    rw [hr]
    norm_num

/-- Witness for warmup_fallback_behavior on a 4 by 3 landscape frame: the
fallback survives the aspect filter and the status is Ok. -/
theorem warmup_fallback_behavior_example :
    ((0 : ℚ) < 4 ∧ (0 : ℚ) < 3) ∧
    (approximateVehicleBox 4 3 = some ⟨4 * 0.1, 3 * 0.2, 4 * (1 - 2 * 0.1), 3 * 0.6⟩ ∧
     (analyzeFrameTick false false 4 3 (fun _ => 0) 0 0
        ⟨0, ⟨none, 0⟩, ⟨none, [], .ok, false, false⟩⟩).guidance.distanceStatus =
       (if (4 : ℚ) * (1 - 2 * 0.1) / (3 * 0.6) < 1 then .no_vehicle else .ok)) :=
  ⟨by norm_num,
   warmup_fallback_behavior 4 3 (by norm_num) (by norm_num) false (fun _ => 0) 0 0
     ⟨0, ⟨none, 0⟩, ⟨none, [], .ok, false, false⟩⟩⟩

/-- The fold of pickLargest always returns an element of the candidate
list (with the starting element in front). -/
theorem pickLargest_mem (l : List Prediction) : ∀ p, pickLargest p l ∈ p :: l := by
  induction l with
  | nil => intro p; simp [pickLargest]
  | cons q tl ih =>
    intro p
    have hdef : pickLargest p (q :: tl) =
        pickLargest (if predictionArea q > predictionArea p then q else p) tl := rfl
    rw [hdef]
    by_cases hq : predictionArea q > predictionArea p
    · rw [if_pos hq]
      exact List.mem_cons_of_mem p (ih q)
    · rw [if_neg hq]
      rcases List.mem_cons.mp (ih p) with h1 | h1
      · rw [h1]
        exact List.mem_cons_self _ _
      · exact List.mem_cons_of_mem _ (List.mem_cons_of_mem _ h1)

/-- selectVehiclePrediction when no candidate passes the class filter. -/
theorem select_of_filter_nil (preds : List Prediction)
    (hl : preds.filter isVehiclePrediction = []) :
    selectVehiclePrediction preds = .ok none := by
  unfold selectVehiclePrediction
  rw [hl]

/-- selectVehiclePrediction with a single candidate: the sort comparator
is never invoked and the candidate is returned as is. -/
theorem select_of_filter_single (preds : List Prediction) (p : Prediction)
    (hl : preds.filter isVehiclePrediction = [p]) :
    selectVehiclePrediction preds = .ok (some p) := by
  unfold selectVehiclePrediction
  rw [hl]

/-- selectVehiclePrediction with two or more candidates: the comparator
touches every bbox, raising when one is absent. -/
theorem select_of_filter_cons2 (preds : List Prediction) (p q : Prediction)
    (tl : List Prediction) (hl : preds.filter isVehiclePrediction = p :: q :: tl) :
    selectVehiclePrediction preds =
      if (p :: q :: tl).all (fun r => r.bbox.isSome) then
        .ok (some (pickLargest p (q :: tl)))
      else .error () := by
  unfold selectVehiclePrediction
  rw [hl]

/-- C6 counterexample: a completion holding a single prediction with an
allowed vehicle class but no bounding box passes the class filter, is
selected, and then crashes at the bbox destructuring of line 110, so the
completion handler raises instead of being treated as a miss. -/
theorem vehicle_pred_missing_bbox_throws :
    handleDetections [⟨some "car", none, 1/2⟩] ⟨none, 0⟩ 100 = .error () := rfl

/-- C6 (amended): if every prediction carrying an allowed vehicle class
also carries a bounding box, the completion handler terminates normally
(returns ok), and when no prediction qualifies (in particular when the
class fields are missing), the cache is updated exactly by the 1000 ms
miss rule: the stored box is cleared only if more than 1000 ms passed
since the last successful detection, the timestamp being kept. -/
theorem wellformed_completion_no_crash (preds : List Prediction) (st : CacheState)
    (now : ℚ)
    (h : ∀ p ∈ preds, isVehiclePrediction p = true → p.bbox.isSome = true) :
    (∃ st2, handleDetections preds st now = .ok st2) ∧
    ((∀ p ∈ preds, isVehiclePrediction p = false) →
      handleDetections preds st now =
        if now - st.lastDetectionTime > 1000 then
          .ok { st with lastDetectionBox := none }
        else .ok st) := by
  have hfiltered : ∀ p ∈ preds.filter isVehiclePrediction, p.bbox.isSome = true := by
    intro p hp
    obtain ⟨hmem, hveh⟩ := List.mem_filter.mp hp
    exact h p hmem hveh
  constructor
  · rcases hl : preds.filter isVehiclePrediction with - | ⟨p, - | ⟨q, tl⟩⟩
    · unfold handleDetections
      rw [select_of_filter_nil preds hl]
      by_cases hcond : now - st.lastDetectionTime > 1000
      · exact ⟨_, by rw [if_pos hcond]⟩
      · exact ⟨_, by rw [if_neg hcond]⟩
    · have hbb : p.bbox.isSome = true := hfiltered p (by rw [hl]; exact List.mem_cons_self _ _)
      obtain ⟨bb, hbb2⟩ := Option.isSome_iff_exists.mp hbb
      obtain ⟨bx, by2, bw, bh⟩ := bb
      unfold handleDetections
      rw [select_of_filter_single preds p hl]
      dsimp only
      rw [hbb2]
      exact ⟨_, rfl⟩
    · have hall : (p :: q :: tl).all (fun r => r.bbox.isSome) = true := by
        rw [List.all_eq_true]
        intro r hr
        exact hfiltered r (by rw [hl]; exact hr)
      have hsel : pickLargest p (q :: tl) ∈ p :: q :: tl := pickLargest_mem (q :: tl) p
      have hbb : (pickLargest p (q :: tl)).bbox.isSome = true :=
        hfiltered _ (by rw [hl]; exact hsel)
      obtain ⟨bb, hbb2⟩ := Option.isSome_iff_exists.mp hbb
      obtain ⟨bx, by2, bw, bh⟩ := bb
      unfold handleDetections
      rw [select_of_filter_cons2 preds p q tl hl, if_pos hall]
      dsimp only
      rw [hbb2]
      exact ⟨_, rfl⟩
  · intro h2
    have hnil : preds.filter isVehiclePrediction = [] := by
      rw [List.filter_eq_nil_iff]
      intro p hp
      simp [h2 p hp]
    unfold handleDetections
    rw [select_of_filter_nil preds hnil]

unseal Rat.inv Rat.mul Rat.ofScientific in
/-- Witness for wellformed_completion_no_crash: a completion holding one
prediction whose class field is missing (and whose bbox is present) is
handled without raising and hits the miss rule at 2000 ms elapsed. -/
theorem wellformed_completion_no_crash_example :
    (∀ p ∈ [Prediction.mk none (some (0, 0, 2, 1)) (1/2)],
      isVehiclePrediction p = true → p.bbox.isSome = true) ∧
    ((∃ st2, handleDetections [⟨none, some (0, 0, 2, 1), 1/2⟩] ⟨none, 0⟩ 2000 = .ok st2) ∧
     ((∀ p ∈ [Prediction.mk none (some (0, 0, 2, 1)) (1/2)],
        isVehiclePrediction p = false) →
      handleDetections [⟨none, some (0, 0, 2, 1), 1/2⟩] ⟨none, 0⟩ 2000 =
        if (2000 : ℚ) - (⟨none, 0⟩ : CacheState).lastDetectionTime > 1000 then
          .ok { (⟨none, 0⟩ : CacheState) with lastDetectionBox := none }
        else .ok ⟨none, 0⟩)) :=
  ⟨by decide, wellformed_completion_no_crash _ _ _ (by decide)⟩

/-- C7: from the started, not-recording view, pressing start while no
vehicle is detected is a no-op on the whole session (recorder, coverage
and detection bookkeeping included); recording can become active only
from a state that already records or has a detected vehicle; and a tick
reports vehicleDetected = false exactly when its distance status is
NoVehicle, so the no-vehicle report and the disabled start control
coincide. -/
theorem start_requires_vehicle_detection (s : Session) (now : ℚ)
    (h : s.vehicleDetected = false) :
    pressStart s now = s ∧
    (∀ (s2 : Session) (n2 : ℚ), (pressStart s2 n2).isRecording = true →
      s2.isRecording = true ∨ s2.vehicleDetected = true) ∧
    (∀ (vb : Option Box) (cw : ℚ) (data : ℕ → ℚ) (sf : Bool) (t : ℚ)
      (g : GuidanceState),
      ((guidanceStep vb cw data sf t g).vehicleDetected = false ↔
        (guidanceStep vb cw data sf t g).distanceStatus = .no_vehicle)) := by
  refine ⟨?_, ?_, ?_⟩
  · unfold pressStart
    split_ifs with h1 h2 h3 h4 <;> simp_all
  · intro s2 n2 hr
    by_cases hd : s2.vehicleDetected = true
    · exact Or.inr hd
    · left
      have hnoop : pressStart s2 n2 = s2 := by
        unfold pressStart
        split_ifs <;> simp_all
      rw [hnoop] at hr
      exact hr
  · intro vb cw data sf t g
    cases vb with
    | none => simp [guidanceStep]
    | some b =>
      simp only [guidanceStep]
      rw [distanceStatusOf_some]
      split_ifs <;> simp

/-- Witness for start_requires_vehicle_detection: a started, not-recording
session with a stream but no detected vehicle; pressing start changes
nothing. -/
theorem start_requires_vehicle_detection_example :
    (Session.mk true false false true none 0 false 0 0 0).vehicleDetected = false ∧
    (pressStart ⟨true, false, false, true, none, 0, false, 0, 0, 0⟩ 5 =
        ⟨true, false, false, true, none, 0, false, 0, 0, 0⟩ ∧
      (∀ (s2 : Session) (n2 : ℚ), (pressStart s2 n2).isRecording = true →
        s2.isRecording = true ∨ s2.vehicleDetected = true) ∧
      (∀ (vb : Option Box) (cw : ℚ) (data : ℕ → ℚ) (sf : Bool) (t : ℚ)
        (g : GuidanceState),
        ((guidanceStep vb cw data sf t g).vehicleDetected = false ↔
          (guidanceStep vb cw data sf t g).distanceStatus = .no_vehicle))) :=
  ⟨rfl, start_requires_vehicle_detection ⟨true, false, false, true, none, 0, false, 0, 0, 0⟩ 5 rfl⟩

/-- C8: on a tick with a vehicle box and a previous sample (x0, t0), the
speed warning is set exactly when |centerX - x0| divided by the elapsed
seconds exceeds 600; every box tick overwrites the stored pair with the
current center and time; and a tick without a box clears the warning and
leaves the pair unchanged.  The concrete instances: 520 px in 0.2 s
(2600 px/s) warns and 40 px in 1 s (40 px/s) does not. -/
theorem speed_warning_rule (b : Box) (cw : ℚ) (data : ℕ → ℚ) (sf : Bool)
    (g : GuidanceState) (x0 t0 now : ℚ)
    (hlast : g.lastCenter = some (x0, t0)) (_hdt : t0 < now) :
    ((guidanceStep (some b) cw data sf now g).speedWarning =
      decide (|b.x + b.width / 2 - x0| / ((now - t0) / 1000) > 600)) ∧
    (∀ g2 : GuidanceState,
      (guidanceStep (some b) cw data sf now g2).lastCenter =
        some (b.x + b.width / 2, now)) ∧
    (∀ g3 : GuidanceState,
      (guidanceStep none cw data sf now g3).speedWarning = false ∧
      (guidanceStep none cw data sf now g3).lastCenter = g3.lastCenter) ∧
    (guidanceStep (some ⟨500, 0, 40, 20⟩) 1000 data false 200
      ⟨some (0, 0), [], .ok, false, false⟩).speedWarning = true ∧
    (guidanceStep (some ⟨20, 0, 40, 20⟩) 1000 data false 1000
      ⟨some (0, 0), [], .ok, false, false⟩).speedWarning = false := by
  refine ⟨?_, fun g2 => rfl, fun g3 => ⟨rfl, rfl⟩, ?_, ?_⟩
  · simp only [guidanceStep, hlast]
  · simp only [guidanceStep]
    rw [decide_eq_true_eq]
    have h1 : |(500 : ℚ) + 40 / 2 - 0| = 520 := by
      rw [show (500 : ℚ) + 40 / 2 - 0 = 520 by norm_num]
      rw [abs_of_nonneg (by norm_num : (0 : ℚ) ≤ 520)]
    rw [h1]
    norm_num
  · simp only [guidanceStep]
    rw [decide_eq_false_iff_not]
    have h1 : |(20 : ℚ) + 40 / 2 - 0| = 40 := by
      rw [show (20 : ℚ) + 40 / 2 - 0 = 40 by norm_num]
      rw [abs_of_nonneg (by norm_num : (0 : ℚ) ≤ 40)]
    rw [h1]
    norm_num

/-- Witness for speed_warning_rule at the 520 px over 0.2 s example. -/
theorem speed_warning_rule_example :
    ((⟨some (0, 0), [], DistanceStatus.ok, false, false⟩ : GuidanceState).lastCenter =
        some (0, 0) ∧ (0 : ℚ) < 200) ∧
    (((guidanceStep (some ⟨500, 0, 40, 20⟩) 1000 (fun _ => 0) false 200
        ⟨some (0, 0), [], .ok, false, false⟩).speedWarning =
      decide (|(500 : ℚ) + 40 / 2 - 0| / (((200 : ℚ) - 0) / 1000) > 600)) ∧
     (∀ g2 : GuidanceState,
       (guidanceStep (some ⟨500, 0, 40, 20⟩) 1000 (fun _ => 0) false 200 g2).lastCenter =
         some ((500 : ℚ) + 40 / 2, 200)) ∧
     (∀ g3 : GuidanceState,
       (guidanceStep none 1000 (fun _ => 0) false 200 g3).speedWarning = false ∧
       (guidanceStep none 1000 (fun _ => 0) false 200 g3).lastCenter = g3.lastCenter) ∧
     (guidanceStep (some ⟨500, 0, 40, 20⟩) 1000 (fun _ => 0) false 200
       ⟨some (0, 0), [], .ok, false, false⟩).speedWarning = true ∧
     (guidanceStep (some ⟨20, 0, 40, 20⟩) 1000 (fun _ => 0) false 1000
       ⟨some (0, 0), [], .ok, false, false⟩).speedWarning = false) :=
  ⟨⟨rfl, by norm_num⟩,
   speed_warning_rule ⟨500, 0, 40, 20⟩ 1000 (fun _ => 0) false
     ⟨some (0, 0), [], .ok, false, false⟩ 0 0 200 rfl (by norm_num)⟩

/-- An integral pixel dimension floors to itself. -/
theorem pixelDim_44 : pixelDim 44 = 44 := rfl

/-- The merged damage detections of the 44 by 44 blue region: the single
flagged block survives the merge pass unchanged. -/
theorem blue_detectDamage_44 :
    detectDamageInVehicleArea bluePixels 44 44 ⟨0, 0, 44, 44⟩ =
      [⟨⟨0, 0, 40, 40⟩, 778 / 1275, "DAMAGE"⟩] := by
  show (mergeNearbyBoxes (damageAreasOf bluePixels 44 44 0 0)).map _ = _
  rw [blue_damageAreas_44]
  rfl

unseal Rat.add Rat.sub Rat.mul Rat.inv Rat.ofScientific in
/-- C9 counterexample: a tick whose scan cadence fires and whose vehicle
center moved 150 px since the previous tick ends with an empty damage
collection even though the scanner produced a non-empty region list on
this very tick: the movement check of lines 202-209 runs after the
scanner of line 171 and discards the regions just produced, so the
collection is not cleared before new regions are produced. -/
theorem damage_cleared_after_scan :
    (guidanceStep (some ⟨0, 0, 44, 44⟩) 1000 bluePixels true 100
        ⟨some (200, 0), [], .ok, false, true⟩).damageDetections = [] ∧
    detectDamageInVehicleArea bluePixels (pixelDim 44) (pixelDim 44)
      ⟨0, 0, 44, 44⟩ ≠ [] := by
  constructor
  · simp only [guidanceStep]
    rw [if_pos]
    have h1 : (0 : ℚ) + 44 / 2 - 200 = -178 := by norm_num
    rw [h1, abs_neg, abs_of_nonneg (by norm_num : (0 : ℚ) ≤ 178)]
    norm_num
  · rw [pixelDim_44, blue_detectDamage_44]
    simp

/-- C9 (amended): on a tick with a vehicle box and a previous center x0,
the resulting damage collection is empty whenever the center moved more
than 50 px — including the regions the scanner produced on that same tick,
because the movement check runs after the scanner; when the movement is
50 px or less, the collection is the fresh scan result on scan ticks and
is retained unchanged otherwise. -/
theorem damage_invalidation_order (b : Box) (cw : ℚ) (data : ℕ → ℚ) (sf : Bool)
    (g : GuidanceState) (x0 t0 now : ℚ) (hlast : g.lastCenter = some (x0, t0)) :
    (guidanceStep (some b) cw data sf now g).damageDetections =
      if |b.x + b.width / 2 - x0| > 50 then []
      else if sf then
        detectDamageInVehicleArea data (pixelDim b.width) (pixelDim b.height) b
      else g.damageDetections := by
  simp only [guidanceStep, hlast]

/-- Witness for damage_invalidation_order: a box whose center moved 99 px
on a non-scan tick; the collection is discarded. -/
theorem damage_invalidation_order_example :
    ((⟨some (100, 0), [], DistanceStatus.ok, false, true⟩ : GuidanceState).lastCenter =
      some (100, 0)) ∧
    (guidanceStep (some ⟨0, 0, 2, 1⟩) 1000 (fun _ => 0) false 50
        ⟨some (100, 0), [], .ok, false, true⟩).damageDetections =
      (if |(0 : ℚ) + 2 / 2 - 100| > 50 then []
       else if (false : Bool) then
         detectDamageInVehicleArea (fun _ => 0) (pixelDim 2) (pixelDim 1) ⟨0, 0, 2, 1⟩
       else []) :=
  ⟨rfl,
   damage_invalidation_order ⟨0, 0, 2, 1⟩ 1000 (fun _ => 0) false
     ⟨some (100, 0), [], .ok, false, true⟩ 100 0 50 rfl⟩

/-- The block fold keeps the total contrast and the maximum difference
nonnegative (any image). -/
theorem foldl_acc_nonneg (data : ℕ → ℚ) (width height x y : ℕ)
    (l : List (ℕ × ℕ)) (acc : BlockAcc)
    (h1 : 0 ≤ acc.totalContrast) (h2 : 0 ≤ acc.maxDiff) :
    0 ≤ (l.foldl (blockAccStep data width height x y) acc).totalContrast ∧
    0 ≤ (l.foldl (blockAccStep data width height x y) acc).maxDiff := by
  induction l generalizing acc with
  | nil => exact ⟨h1, h2⟩
  | cons p tl ih =>
    rw [List.foldl_cons]
    refine ih _ ?_ ?_ <;> unfold blockAccStep <;> split
    · exact add_nonneg h1 (abs_nonneg _)
    · exact h1
    · exact le_trans h2 (le_max_left _ _)
    · exact h2

/-- Every area the flagger emits has confidence between 0.4 and 0.95. -/
theorem flagBlock_conf_bounds (data : ℕ → ℚ) (width height : ℕ) (boxX boxY : ℚ)
    (x y : ℕ) (area : DamageArea)
    (hsome : flagBlock data width height boxX boxY x y = some area) :
    0.4 ≤ area.confidence ∧ area.confidence ≤ 0.95 := by
  have hnn := foldl_acc_nonneg data width height x y blockPairs ⟨0, 0, 0⟩
    (le_refl 0) (le_refl 0)
  have havg : 0 ≤ avgContrastOf (blockStats data width height x y) := by
    unfold avgContrastOf
    split
    · exact div_nonneg hnn.1 (Nat.cast_nonneg _)
    · exact le_refl 0
  unfold flagBlock at hsome
  split_ifs at hsome
  have harea := Option.some.inj hsome
  have hconf : area.confidence = min 0.95
      (0.4 + avgContrastOf (blockStats data width height x y) / 255 * 0.5 +
        (blockStats data width height x y).maxDiff / 255 * 0.3) := by
    rw [← harea]
  rw [hconf]
  constructor
  · refine le_min (by norm_num) ?_
    have t1 : 0 ≤ avgContrastOf (blockStats data width height x y) / 255 * 0.5 := by
      apply mul_nonneg (div_nonneg havg (by norm_num)) (by norm_num)
    have t2 : 0 ≤ (blockStats data width height x y).maxDiff / 255 * 0.3 := by
      apply mul_nonneg (div_nonneg hnn.2 (by norm_num)) (by norm_num)
    linarith
  · exact min_le_left _ _

/-- Unfolding equation of the inner merge loop at a cons cell. -/
theorem mergeStep_cons (cur b : DamageArea) (tl : List DamageArea) :
    mergeStep cur (b :: tl) =
      if centerDistSq cur b < 3600 then mergeStep (mergeUnion cur b) tl
      else ((mergeStep cur tl).1, b :: (mergeStep cur tl).2) := rfl

/-- mergeStep preserves any property closed under mergeUnion. -/
theorem mergeStep_preserves (P : DamageArea → Prop)
    (hU : ∀ a b, P a → P b → P (mergeUnion a b)) :
    ∀ (rest : List DamageArea) (cur : DamageArea), P cur → (∀ a ∈ rest, P a) →
      P (mergeStep cur rest).1 ∧ ∀ a ∈ (mergeStep cur rest).2, P a := by
  intro rest
  induction rest with
  | nil =>
    intro cur hc _
    exact ⟨hc, by simp [mergeStep]⟩
  | cons b tl ih =>
    intro cur hc hall
    by_cases hd : centerDistSq cur b < 3600
    · rw [mergeStep_cons, if_pos hd]
      exact ih _ (hU _ _ hc (hall b (List.mem_cons_self _ _)))
        (fun a ha => hall a (List.mem_cons_of_mem _ ha))
    · rw [mergeStep_cons, if_neg hd]
      obtain ⟨hh1, hh2⟩ := ih cur hc (fun a ha => hall a (List.mem_cons_of_mem _ ha))
      refine ⟨hh1, ?_⟩
      intro a ha
      rcases List.mem_cons.mp ha with rfl | ha2
      · exact hall a (List.mem_cons_self _ _)
      · exact hh2 a ha2

/-- The outer merge loop preserves any property closed under mergeUnion. -/
theorem mergeOuterLoop_preserves (P : DamageArea → Prop)
    (hU : ∀ a b, P a → P b → P (mergeUnion a b)) :
    ∀ (fuel : ℕ) (l : List DamageArea), (∀ a ∈ l, P a) →
      ∀ a ∈ mergeOuterLoop fuel l, P a := by
  intro fuel
  induction fuel with
  | zero =>
    intro l hl a ha
    cases l with
    | nil => simp [mergeOuterLoop] at ha
    | cons b tl => simp [mergeOuterLoop] at ha
  | succ n ih =>
    intro l hl a ha
    cases l with
    | nil => simp [mergeOuterLoop] at ha
    | cons b tl =>
      have he : mergeOuterLoop (n + 1) (b :: tl) =
          (mergeStep b tl).1 :: mergeOuterLoop n (mergeStep b tl).2 := rfl
      rw [he] at ha
      obtain ⟨hp1, hp2⟩ := mergeStep_preserves P hU tl b
        (hl b (List.mem_cons_self _ _)) (fun q hq => hl q (List.mem_cons_of_mem _ hq))
      rcases List.mem_cons.mp ha with rfl | ha2
      · exact hp1
      · exact ih _ hp2 a ha2

/-- mergeNearbyBoxes preserves any property closed under mergeUnion. -/
theorem mergeNearbyBoxes_preserves (P : DamageArea → Prop)
    (hU : ∀ a b, P a → P b → P (mergeUnion a b))
    (l : List DamageArea) (hl : ∀ a ∈ l, P a) :
    ∀ a ∈ mergeNearbyBoxes l, P a :=
  mergeOuterLoop_preserves P hU l.length l hl

/-- C10: every damage region the scanner can ever hold has confidence in
the closed interval [0.4, 0.95]: the flagging formula bounds it at
creation and the merge step takes the maximum of two bounded confidences. -/
theorem damage_confidence_bounds (data : ℕ → ℚ) (width height : ℕ) (vb : Box) :
    (detectDamageInVehicleArea data width height vb).Forall
      (fun d => 0.4 ≤ d.confidence ∧ d.confidence ≤ 0.95) := by
  rw [List.forall_iff_forall_mem]
  intro d hd
  unfold detectDamageInVehicleArea at hd
  obtain ⟨area, hmem, hd2⟩ := List.mem_map.mp hd
  have hareas : ∀ a ∈ damageAreasOf data width height vb.x vb.y,
      0.4 ≤ a.confidence ∧ a.confidence ≤ 0.95 := by
    intro a ha
    unfold damageAreasOf at ha
    obtain ⟨y, hy, ha2⟩ := List.mem_flatMap.mp ha
    obtain ⟨x, hx, hsome⟩ := List.mem_filterMap.mp ha2
    exact flagBlock_conf_bounds data width height vb.x vb.y x y a hsome
  have hbounds := mergeNearbyBoxes_preserves
    (fun a => 0.4 ≤ a.confidence ∧ a.confidence ≤ 0.95)
    (fun a b pa pb => by
      unfold mergeUnion
      exact ⟨le_trans pa.1 (le_max_left _ _), max_le pa.2 pb.2⟩)
    _ hareas area hmem
  rw [← hd2]
  exact hbounds

end VehicleInspection
